import Mathlib

/-!
Verification of the Mind-Log Lab triage and experiment-analysis engines.

The triage engine (src/experiment.py) classifies a sentiment score into a
severity bucket, detects crisis situations from the raw text and the score,
and either bypasses the experiment (crisis path) or assigns an A/B variant
and selects a response template.

The analysis engine (src/analytics.py) filters the interaction population,
computes per-variant conversion rates with Wilson confidence intervals,
runs a two-proportion z-test, computes relative lift and a recommendation,
and exposes funnel counts.

Modelling conventions:
* Python floats are idealised as rationals (scores, rates, lift) or reals
  (confidence-interval endpoints, z-statistics, p-values).
* Text is a list of characters; Python substring containment `kw in text`
  becomes list-infix containment.
* The VADER sentiment scorer and the random variant draw are external
  capabilities: the orchestrator is modelled as a function of the score and
  the drawn variant, exactly as the spec's design notes prescribe.
* `statsmodels.proportion_confint(method=wilson)` and `proportions_ztest`
  are third-party library calls, not repository code; they are modelled
  from the spec's closed-form descriptions (sections 4.6 and 4.7). The
  normal quantile z = Phi_inv(1 - alpha/2) and the normal CDF Phi are
  likewise external, so they enter as parameters (`z`, `Φ`).
-/

namespace MindLog

/-- A/B test variants, from src/experiment.py (class Variant). -/
inductive Variant where
  | A_CLINICAL
  | B_EMPATHETIC
deriving DecidableEq, Repr

/-- Severity buckets derived from sentiment, from src/experiment.py (class Severity). -/
inductive Severity where
  | MILD
  | MODERATE
  | SEVERE
deriving DecidableEq, Repr

/-- The configured crisis keyword list, transcribed from
src/experiment.py (CRISIS_KEYWORDS). -/
def CRISIS_KEYWORDS : List String :=
  [ "hurt myself"
  , "end it"
  , "end it all"
  , "suicide"
  , "suicidal"
  , "kill myself"
  , "killing myself"
  , "don\x27t want to live"
  , "dont want to live"
  , "no reason to live"
  , "better off dead"
  , "can\x27t go on"
  , "cant go on"
  , "want to die"
  , "wish i was dead"
  , "take my life"
  , "end my life" ]

/-- Sentiment threshold below which a crisis fires, from src/experiment.py
(CRISIS_SENTIMENT_THRESHOLD = -0.8). -/
def CRISIS_SENTIMENT_THRESHOLD : ℚ := -(8/10)

/-- Crisis detector, from src/experiment.py (detect_crisis): fires when the
sentiment score is strictly below the threshold, or when the lowercased text
contains one of the configured keywords as a substring. Text is modelled as
a list of characters; `keyword in text_lower` is list-infix containment. -/
def detect_crisis (text : List Char) (sentiment_score : ℚ) : Bool :=
  let text_lower := text.map Char.toLower
  if sentiment_score < CRISIS_SENTIMENT_THRESHOLD then
    true
  else
    CRISIS_KEYWORDS.any (fun keyword => decide (keyword.toList <:+: text_lower))

/-- Severity classifier, from src/experiment.py (get_severity_bucket):
score < -0.5 is SEVERE, -0.5 <= score < 0 is MODERATE, score >= 0 is MILD. -/
def get_severity_bucket (sentiment_score : ℚ) : Severity :=
  if sentiment_score < -(1/2) then
    Severity.SEVERE
  else if sentiment_score < 0 then
    Severity.MODERATE
  else
    Severity.MILD

/-- The fixed safety-resources message, transcribed from src/experiment.py
(CRISIS_RESOURCES). -/
def CRISIS_RESOURCES : String :=
  "\n## You\x27re Not Alone\n\nIf you\x27re having thoughts of self-harm, please reach out now:\n\n🆘 **SOS 24-hour Hotline**: 1-767\n📞 **IMH Mental Health Helpline**: 6389-2222\n💬 **Samaritans of Singapore**: 1800-221-4444\n\nThese services are free, confidential, and available 24/7.\n\n**You matter. Help is available.**\n"

/-- Result of analysing user input, from src/experiment.py (AnalysisResult). -/
structure AnalysisResult where
  sentiment_score : ℚ
  severity : Severity
  is_crisis : Bool
  assigned_variant : Option Variant
  response_text : String
  crisis_resources : Option String
deriving Repr

/-- Response template lookup, from src/experiment.py (RESPONSES and
get_response): a fixed template per (variant, severity) pair. -/
def get_response (variant : Variant) (severity : Severity) : String :=
  match variant, severity with
  | Variant.A_CLINICAL, Severity.MILD =>
      "**Assessment Complete**\n\nSymptom severity: **Mild**\n\nYour responses indicate low distress levels. Preventive self-care is recommended. Professional consultation available if desired."
  | Variant.A_CLINICAL, Severity.MODERATE =>
      "**Assessment Complete**\n\nSymptom severity: **Moderate**\n\nYour responses indicate moderate distress. Recommended action: Consultation with a mental health professional. Early intervention can prevent escalation."
  | Variant.A_CLINICAL, Severity.SEVERE =>
      "**Assessment Complete**\n\nSymptom severity: **High**\n\nYour responses indicate significant distress. Immediate professional support is strongly recommended. A counselor can help you navigate these feelings."
  | Variant.B_EMPATHETIC, Severity.MILD =>
      "Thank you for sharing with me. 💙\n\nIt sounds like you\x27re managing, and that takes strength. Even when things feel okay, having someone to talk to can help maintain your wellbeing. Would you like to explore some self-care resources, or connect with a supportive listener?"
  | Variant.B_EMPATHETIC, Severity.MODERATE =>
      "I hear you, and I want you to know that what you\x27re feeling matters. 💙\n\nIt sounds like you\x27re carrying quite a bit right now. You don\x27t have to figure this out alone. Speaking with someone who understands can make a real difference. Would you be open to connecting with a counselor who can help?"
  | Variant.B_EMPATHETIC, Severity.SEVERE =>
      "I\x27m really glad you reached out. What you\x27re going through sounds incredibly hard. 💙\n\nPlease know that these feelings, as overwhelming as they are, can get better with support. You\x27ve taken an important step by sharing this. I\x27d really encourage you to speak with someone who can help you through this. Would you like to connect with a counselor now?"

/-- Triage orchestrator, from src/experiment.py (analyze_input). The VADER
sentiment score and the random variant draw are external capabilities, so
they are passed in as arguments: `sentiment_score` is the scorer's output
for `text`, and `drawn_variant` is the assigner's draw, used only on the
non-crisis path. -/
def analyze_input (sentiment_score : ℚ) (drawn_variant : Variant)
    (text : List Char) : AnalysisResult :=
  let severity := get_severity_bucket sentiment_score
  let is_crisis := detect_crisis text sentiment_score
  if is_crisis then
    { sentiment_score := sentiment_score
      severity := severity
      is_crisis := true
      assigned_variant := none
      response_text := ""
      crisis_resources := some CRISIS_RESOURCES }
  else
    { sentiment_score := sentiment_score
      severity := severity
      is_crisis := false
      assigned_variant := some drawn_variant
      response_text := get_response drawn_variant severity
      crisis_resources := none }

/-- One persisted interaction record, from the `interactions` schema in
src/database.py. Only the columns read by the analytics functions under
verification are modelled: `assigned_variant`, `experiment_excluded`
(exclusion reason, e.g. "crisis_protocol") and the tri-state `converted`
(none = pending decision). -/
structure Record where
  assigned_variant : Option Variant
  experiment_excluded : Option String
  converted : Option Bool
deriving DecidableEq, Repr

/-- The in-experiment subset, from src/analytics.py (run_ab_test, line
`df_exp = df[df[...].isna() & df[...].notna()]`): records with a null
exclusion reason and a non-null assigned variant. -/
def experiment_subset (df : List Record) : List Record :=
  df.filter (fun r => r.experiment_excluded.isNone && r.assigned_variant.isSome)

/-- One variant's group within the in-experiment subset, from
src/analytics.py (run_ab_test, `df_a` / `df_b`). -/
def variant_subset (df : List Record) (v : Variant) : List Record :=
  (experiment_subset df).filter (fun r => decide (r.assigned_variant = some v))

/-- Conversion count of a group, from src/analytics.py (run_ab_test,
`df_a['converted'].sum()`): pandas `sum` skips nulls, so a pending
(null) conversion contributes 0 while still occupying a row. -/
def conversions_count (l : List Record) : ℕ :=
  (l.filter (fun r => decide (r.converted = some true))).length

/-- Modelled from the spec: the Wilson score interval (section 4.6). The
repository obtains it from `statsmodels.proportion_confint(...,
method=wilson)`, a third-party call whose code is not in the repository;
`z` is the externally computed normal quantile for the confidence level. -/
noncomputable def wilson_interval (conversions total : ℕ) (z : ℝ) : ℝ × ℝ :=
  let n : ℝ := total
  let k : ℝ := conversions
  let p : ℝ := k / n
  let center : ℝ := (k + z ^ 2 / 2) / (n + z ^ 2)
  let halfwidth : ℝ := z * Real.sqrt (p * (1 - p) / n + z ^ 2 / (4 * n ^ 2)) / (1 + z ^ 2 / n)
  (center - halfwidth, center + halfwidth)

/-- Rate estimator, from src/analytics.py (calculate_conversion_rate_ci):
returns (0, 0, 0) when there are no trials, otherwise the point rate k/n
together with the Wilson interval. The mapping alpha -> z is scipy's
inverse normal CDF, external to the repository, so the quantile `z` is a
parameter. -/
noncomputable def calculate_conversion_rate_ci (conversions total : ℕ) (z : ℝ) :
    ℚ × ℝ × ℝ :=
  if total = 0 then (0, 0, 0)
  else ((conversions : ℚ) / (total : ℚ),
        (wilson_interval conversions total z).1,
        (wilson_interval conversions total z).2)

/-- Modelled from the spec: the pooled standard error of the two-proportion
z-test (section 4.7), SE = sqrt(p(1-p)(1/n1 + 1/n2)) with pooled
p = (k1+k2)/(n1+n2); the computation lives inside the third-party
`statsmodels.proportions_ztest`, not in the repository. -/
noncomputable def pooled_se (k1 n1 k2 n2 : ℕ) : ℝ :=
  let p : ℝ := ((k1 : ℝ) + k2) / ((n1 : ℝ) + n2)
  Real.sqrt (p * (1 - p) * (1 / (n1 : ℝ) + 1 / (n2 : ℝ)))

/-- Modelled from the spec: the significance tester (section 4.7). The
repository calls `statsmodels.proportions_ztest(count=[k1,k2],
nobs=[n1,n2], alternative=larger)`, a third-party call whose code is not
in the repository; per the spec, z = (rate1 - rate2)/SE, one-sided
p = 1 - Phi(z), and (z, p) = (0, 1) when either n is 0 or SE is 0. `Φ` is
the external standard normal CDF. -/
noncomputable def proportions_ztest_spec (Φ : ℝ → ℝ) (k1 n1 k2 n2 : ℕ) : ℝ × ℝ :=
  if n1 = 0 ∨ n2 = 0 then (0, 1)
  else if pooled_se k1 n1 k2 n2 = 0 then (0, 1)
  else
    let zstat : ℝ := ((k1 : ℝ) / n1 - (k2 : ℝ) / n2) / pooled_se k1 n1 k2 n2
    (zstat, 1 - Φ zstat)

/-- The fixed adopt-B recommendation message, from src/analytics.py
(run_ab_test). -/
def REC_ADOPT_B : String :=
  "✅ Variant B (Empathetic) significantly outperforms Variant A. Recommend rolling out Empathetic responses."

/-- The fixed keep-A recommendation message, from src/analytics.py
(run_ab_test). -/
def REC_KEEP_A : String :=
  "⚠️ Variant A (Clinical) significantly outperforms Variant B. Recommend keeping Clinical responses."

/-- The fixed continue-collecting-data recommendation message, from
src/analytics.py (run_ab_test). -/
def REC_CONTINUE : String :=
  "⏳ No statistically significant difference detected. Continue experiment to gather more data."

/-- Results of the A/B statistical analysis, from src/analytics.py
(ABTestResult). -/
structure ABTestResult where
  variant_a_sessions : ℕ
  variant_a_conversions : ℕ
  variant_a_rate : ℚ
  variant_a_ci_lower : ℝ
  variant_a_ci_upper : ℝ
  variant_b_sessions : ℕ
  variant_b_conversions : ℕ
  variant_b_rate : ℚ
  variant_b_ci_lower : ℝ
  variant_b_ci_upper : ℝ
  relative_lift : ℚ
  lift_ci_lower : ℚ
  lift_ci_upper : ℚ
  z_statistic : ℝ
  p_value : ℝ
  is_significant : Bool
  recommendation : String

/-- Experiment analyzer, from src/analytics.py (run_ab_test). `ztest`
models the external `proportions_ztest` call (invoked, as in the source,
with B's counts first: count=[conv_b, conv_a], nobs=[n_b, n_a]); `z95`
is the external normal quantile used for the per-variant 95 percent
Wilson intervals. Lift uses a fixed plus-or-minus 0.15 band, and
significance is the fixed p < 0.05 threshold, as in the source. -/
noncomputable def run_ab_test (df : List Record)
    (ztest : ℕ → ℕ → ℕ → ℕ → ℝ × ℝ) (z95 : ℝ) : ABTestResult :=
  let df_a := variant_subset df Variant.A_CLINICAL
  let df_b := variant_subset df Variant.B_EMPATHETIC
  let n_a := df_a.length
  let conv_a := conversions_count df_a
  let n_b := df_b.length
  let conv_b := conversions_count df_b
  let res_a := calculate_conversion_rate_ci conv_a n_a z95
  let res_b := calculate_conversion_rate_ci conv_b n_b z95
  let rate_a := res_a.1
  let rate_b := res_b.1
  let relative_lift : ℚ := if rate_a > 0 then (rate_b - rate_a) / rate_a else 0
  let zp : ℝ × ℝ := if 0 < n_a ∧ 0 < n_b then ztest conv_b n_b conv_a n_a else (0, 1)
  let p_value := zp.2
  let recommendation : String :=
    if p_value < 0.05 ∧ 0 < relative_lift then REC_ADOPT_B
    else if p_value < 0.05 ∧ relative_lift < 0 then REC_KEEP_A
    else REC_CONTINUE
  { variant_a_sessions := n_a
    variant_a_conversions := conv_a
    variant_a_rate := rate_a
    variant_a_ci_lower := res_a.2.1
    variant_a_ci_upper := res_a.2.2
    variant_b_sessions := n_b
    variant_b_conversions := conv_b
    variant_b_rate := rate_b
    variant_b_ci_lower := res_b.2.1
    variant_b_ci_upper := res_b.2.2
    relative_lift := relative_lift
    lift_ci_lower := relative_lift - 15/100
    lift_ci_upper := relative_lift + 15/100
    z_statistic := zp.1
    p_value := p_value
    is_significant := decide (p_value < 0.05)
    recommendation := recommendation }

/-- Funnel counts, from src/analytics.py (get_funnel_data): total rows,
rows with null exclusion reason, rows converted, rows excluded via the
crisis protocol. -/
structure FunnelData where
  total_sessions : ℕ
  experiment_sessions : ℕ
  conversions : ℕ
  crisis_excluded : ℕ
deriving DecidableEq, Repr

/-- Funnel aggregation, from src/analytics.py (get_funnel_data). -/
def get_funnel_data (df : List Record) : FunnelData :=
  { total_sessions := df.length
    experiment_sessions := (df.filter (fun r => r.experiment_excluded.isNone)).length
    conversions := (df.filter (fun r => decide (r.converted = some true))).length
    crisis_excluded :=
      (df.filter (fun r => decide (r.experiment_excluded = some "crisis_protocol"))).length }

/-- The recommendation policy table of spec section 4.8, as a function of
the significance flag and the sign of the relative lift: (true, positive)
adopts B, (true, negative) keeps A, anything else continues collecting
data. -/
def recommendation_policy (significant : Bool) (lift_sign : SignType) : String :=
  if significant = true ∧ lift_sign = SignType.pos then REC_ADOPT_B
  else if significant = true ∧ lift_sign = SignType.neg then REC_KEEP_A
  else REC_CONTINUE

end MindLog

namespace MindLog

/-- All six response templates are non-empty strings. -/
lemma get_response_ne_empty (v : Variant) (s : Severity) : get_response v s ≠ "" := by
  cases v <;> cases s <;> decide

/-- Claim C1: the crisis detector returns true exactly when the score is
strictly below -0.8 or the lowercase-normalised text contains a configured
keyword as a substring; consequently any text containing a keyword fires at
every score, and any score below -0.8 fires for every text. -/
theorem detect_crisis_characterisation (text : List Char) (sentiment_score : ℚ) :
    detect_crisis text sentiment_score = true ↔
      sentiment_score < -(8/10) ∨
        ∃ kw ∈ CRISIS_KEYWORDS, kw.toList <:+: text.map Char.toLower := by
  unfold detect_crisis
  split
  · rename_i h
    rw [CRISIS_SENTIMENT_THRESHOLD] at h
    simp only [true_iff]
    exact Or.inl h
  · rename_i h
    rw [CRISIS_SENTIMENT_THRESHOLD] at h
    simp only [List.any_eq_true, decide_eq_true_iff]
    constructor
    · rintro ⟨kw, hkw, hinf⟩
      exact Or.inr ⟨kw, hkw, hinf⟩
    · rintro (hs | ⟨kw, hkw, hinf⟩)
      · exact absurd hs h
      · exact ⟨kw, hkw, hinf⟩

/-- Claim C9: the severity classifier is total and deterministic with exact
boundaries: scores below -0.5 are SEVERE, scores in [-0.5, 0) are MODERATE,
scores at or above 0 are MILD; in particular -0.5 maps to MODERATE and 0
maps to MILD. -/
theorem get_severity_bucket_boundaries (s : ℚ) :
    (s < -(1/2) → get_severity_bucket s = Severity.SEVERE) ∧
    (-(1/2) ≤ s → s < 0 → get_severity_bucket s = Severity.MODERATE) ∧
    (0 ≤ s → get_severity_bucket s = Severity.MILD) ∧
    get_severity_bucket (-(1/2)) = Severity.MODERATE ∧
    get_severity_bucket 0 = Severity.MILD := by
  refine ⟨?_, ?_, ?_, ?_, ?_⟩
  · intro h
    unfold get_severity_bucket
    rw [if_pos h]
  · intro h1 h2
    unfold get_severity_bucket
    rw [if_neg (not_lt.mpr h1), if_pos h2]
  · intro h
    unfold get_severity_bucket
    rw [if_neg (not_lt.mpr (le_trans (by norm_num) h)), if_neg (not_lt.mpr h)]
  · unfold get_severity_bucket
    rw [if_neg (by norm_num), if_pos (by norm_num)]
  · unfold get_severity_bucket
    rw [if_neg (by norm_num), if_neg (by norm_num)]

/-- Witness for claim C9 at concrete scores: -0.6 is SEVERE, -0.3 is
MODERATE, 0.2 is MILD. -/
theorem get_severity_bucket_boundaries_witness :
    get_severity_bucket (-(6/10)) = Severity.SEVERE ∧
    get_severity_bucket (-(3/10)) = Severity.MODERATE ∧
    get_severity_bucket (2/10) = Severity.MILD :=
  ⟨(get_severity_bucket_boundaries (-(6/10))).1 (by norm_num),
   (get_severity_bucket_boundaries (-(3/10))).2.1 (by norm_num) (by norm_num),
   (get_severity_bucket_boundaries (2/10)).2.2.1 (by norm_num)⟩

/-- Claim C2: for every score, drawn variant and text, the triage result
has an assigned variant iff it is not a crisis, a non-empty response text
iff it is not a crisis, and carries the fixed non-empty safety-resources
message iff it is a crisis. -/
theorem analyze_input_invariants (score : ℚ) (v : Variant) (text : List Char) :
    ((analyze_input score v text).assigned_variant.isSome = true ↔
        (analyze_input score v text).is_crisis = false) ∧
    ((analyze_input score v text).response_text ≠ "" ↔
        (analyze_input score v text).is_crisis = false) ∧
    ((analyze_input score v text).crisis_resources = some CRISIS_RESOURCES ↔
        (analyze_input score v text).is_crisis = true) ∧
    CRISIS_RESOURCES ≠ "" := by
  unfold analyze_input
  cases h : detect_crisis text score <;>
    simp [h, get_response_ne_empty, CRISIS_RESOURCES]

/-- Projection of the analyzer: A-group session count. -/
lemma run_ab_test_sessions_a (df : List Record)
    (zt : ℕ → ℕ → ℕ → ℕ → ℝ × ℝ) (z95 : ℝ) :
    (run_ab_test df zt z95).variant_a_sessions =
      (variant_subset df Variant.A_CLINICAL).length := rfl

/-- Projection of the analyzer: B-group session count. -/
lemma run_ab_test_sessions_b (df : List Record)
    (zt : ℕ → ℕ → ℕ → ℕ → ℝ × ℝ) (z95 : ℝ) :
    (run_ab_test df zt z95).variant_b_sessions =
      (variant_subset df Variant.B_EMPATHETIC).length := rfl

/-- Projection of the analyzer: A-group conversion count. -/
lemma run_ab_test_conversions_a (df : List Record)
    (zt : ℕ → ℕ → ℕ → ℕ → ℝ × ℝ) (z95 : ℝ) :
    (run_ab_test df zt z95).variant_a_conversions =
      conversions_count (variant_subset df Variant.A_CLINICAL) := rfl

/-- Projection of the analyzer: B-group conversion count. -/
lemma run_ab_test_conversions_b (df : List Record)
    (zt : ℕ → ℕ → ℕ → ℕ → ℝ × ℝ) (z95 : ℝ) :
    (run_ab_test df zt z95).variant_b_conversions =
      conversions_count (variant_subset df Variant.B_EMPATHETIC) := rfl

/-- Projection of the analyzer: A-group rate is the rate estimator's point
estimate on the A-group counts. -/
lemma run_ab_test_rate_a (df : List Record)
    (zt : ℕ → ℕ → ℕ → ℕ → ℝ × ℝ) (z95 : ℝ) :
    (run_ab_test df zt z95).variant_a_rate =
      (calculate_conversion_rate_ci
        (conversions_count (variant_subset df Variant.A_CLINICAL))
        (variant_subset df Variant.A_CLINICAL).length z95).1 := rfl

/-- Projection of the analyzer: B-group rate is the rate estimator's point
estimate on the B-group counts. -/
lemma run_ab_test_rate_b (df : List Record)
    (zt : ℕ → ℕ → ℕ → ℕ → ℝ × ℝ) (z95 : ℝ) :
    (run_ab_test df zt z95).variant_b_rate =
      (calculate_conversion_rate_ci
        (conversions_count (variant_subset df Variant.B_EMPATHETIC))
        (variant_subset df Variant.B_EMPATHETIC).length z95).1 := rfl

/-- Projection of the analyzer: the relative lift is the guarded ratio of
the two group rates. -/
lemma run_ab_test_lift (df : List Record)
    (zt : ℕ → ℕ → ℕ → ℕ → ℝ × ℝ) (z95 : ℝ) :
    (run_ab_test df zt z95).relative_lift =
      if 0 < (run_ab_test df zt z95).variant_a_rate then
        ((run_ab_test df zt z95).variant_b_rate -
            (run_ab_test df zt z95).variant_a_rate) /
          (run_ab_test df zt z95).variant_a_rate
      else 0 := rfl

/-- Projection of the analyzer: the (z, p) pair is the external tester's
output when both groups are non-empty, and (0, 1) otherwise. -/
lemma run_ab_test_zp (df : List Record)
    (zt : ℕ → ℕ → ℕ → ℕ → ℝ × ℝ) (z95 : ℝ) :
    ((run_ab_test df zt z95).z_statistic, (run_ab_test df zt z95).p_value) =
      if 0 < (run_ab_test df zt z95).variant_a_sessions ∧
          0 < (run_ab_test df zt z95).variant_b_sessions then
        zt (run_ab_test df zt z95).variant_b_conversions
          (run_ab_test df zt z95).variant_b_sessions
          (run_ab_test df zt z95).variant_a_conversions
          (run_ab_test df zt z95).variant_a_sessions
      else (0, 1) := rfl

/-- The significance flag holds exactly when the p-value is below 0.05. -/
lemma run_ab_test_significant_iff (df : List Record)
    (zt : ℕ → ℕ → ℕ → ℕ → ℝ × ℝ) (z95 : ℝ) :
    (run_ab_test df zt z95).is_significant = true ↔
      (run_ab_test df zt z95).p_value < 0.05 :=
  decide_eq_true_iff

/-- Projection of the analyzer: the recommendation branch structure. -/
lemma run_ab_test_recommendation (df : List Record)
    (zt : ℕ → ℕ → ℕ → ℕ → ℝ × ℝ) (z95 : ℝ) :
    (run_ab_test df zt z95).recommendation =
      if (run_ab_test df zt z95).p_value < 0.05 ∧
          0 < (run_ab_test df zt z95).relative_lift then REC_ADOPT_B
      else if (run_ab_test df zt z95).p_value < 0.05 ∧
          (run_ab_test df zt z95).relative_lift < 0 then REC_KEEP_A
      else REC_CONTINUE := rfl

/-- Claim C5: the analyzer's relative lift is (rate_B - rate_A)/rate_A when
rate_A is positive and 0 when rate_A is zero. -/
theorem relative_lift_formula (df : List Record)
    (zt : ℕ → ℕ → ℕ → ℕ → ℝ × ℝ) (z95 : ℝ) :
    (0 < (run_ab_test df zt z95).variant_a_rate →
      (run_ab_test df zt z95).relative_lift =
        ((run_ab_test df zt z95).variant_b_rate -
            (run_ab_test df zt z95).variant_a_rate) /
          (run_ab_test df zt z95).variant_a_rate) ∧
    ((run_ab_test df zt z95).variant_a_rate = 0 →
      (run_ab_test df zt z95).relative_lift = 0) := by
  constructor
  · intro h
    rw [run_ab_test_lift, if_pos h]
  · intro h
    rw [run_ab_test_lift, if_neg]
    rw [h]
    exact lt_irrefl 0

/-- Witness for claim C5: on a population with one converted A record and
one unconverted B record the lift is (0 - 1)/1; on a population with only
a B record the A rate is 0 and the lift is 0. -/
theorem relative_lift_formula_witness :
    ((run_ab_test
        [⟨some Variant.A_CLINICAL, none, some true⟩,
         ⟨some Variant.B_EMPATHETIC, none, some false⟩]
        (fun _ _ _ _ => ((0 : ℝ), (1 : ℝ))) 0).relative_lift =
      ((run_ab_test
        [⟨some Variant.A_CLINICAL, none, some true⟩,
         ⟨some Variant.B_EMPATHETIC, none, some false⟩]
        (fun _ _ _ _ => ((0 : ℝ), (1 : ℝ))) 0).variant_b_rate -
        (run_ab_test
        [⟨some Variant.A_CLINICAL, none, some true⟩,
         ⟨some Variant.B_EMPATHETIC, none, some false⟩]
        (fun _ _ _ _ => ((0 : ℝ), (1 : ℝ))) 0).variant_a_rate) /
        (run_ab_test
        [⟨some Variant.A_CLINICAL, none, some true⟩,
         ⟨some Variant.B_EMPATHETIC, none, some false⟩]
        (fun _ _ _ _ => ((0 : ℝ), (1 : ℝ))) 0).variant_a_rate) ∧
    (run_ab_test [⟨some Variant.B_EMPATHETIC, none, some false⟩]
        (fun _ _ _ _ => ((0 : ℝ), (1 : ℝ))) 0).relative_lift = 0 :=
  ⟨(relative_lift_formula _ _ _).1
      (by
        rw [run_ab_test_rate_a,
          show variant_subset
              [⟨some Variant.A_CLINICAL, none, some true⟩,
               ⟨some Variant.B_EMPATHETIC, none, some false⟩]
              Variant.A_CLINICAL =
            [⟨some Variant.A_CLINICAL, none, some true⟩] from rfl,
          show conversions_count
              [(⟨some Variant.A_CLINICAL, none, some true⟩ : Record)] = 1 from rfl]
        norm_num [calculate_conversion_rate_ci]),
   (relative_lift_formula _ _ _).2
      (by
        rw [run_ab_test_rate_a,
          show variant_subset [⟨some Variant.B_EMPATHETIC, none, some false⟩]
              Variant.A_CLINICAL = [] from rfl,
          show conversions_count ([] : List Record) = 0 from rfl]
        norm_num [calculate_conversion_rate_ci])⟩

/-- Claim C10: whenever group A has zero conversions the analyzer reports
zero relative lift and the continue-collecting-data recommendation, for
every tester output (in particular for significant p-values); the adopt-B
recommendation is unreachable. -/
theorem zero_a_conversions_forces_continue (df : List Record)
    (zt : ℕ → ℕ → ℕ → ℕ → ℝ × ℝ) (z95 : ℝ)
    (h : (run_ab_test df zt z95).variant_a_conversions = 0) :
    (run_ab_test df zt z95).variant_a_rate = 0 ∧
    (run_ab_test df zt z95).relative_lift = 0 ∧
    (run_ab_test df zt z95).recommendation = REC_CONTINUE ∧
    (run_ab_test df zt z95).recommendation ≠ REC_ADOPT_B := by
  have hrate : (run_ab_test df zt z95).variant_a_rate = 0 := by
    rw [run_ab_test_rate_a]
    rw [run_ab_test_conversions_a] at h
    rw [h]
    unfold calculate_conversion_rate_ci
    split
    · rfl
    · simp
  have hlift : (run_ab_test df zt z95).relative_lift = 0 := by
    rw [run_ab_test_lift, if_neg]
    rw [hrate]
    exact lt_irrefl 0
  refine ⟨hrate, hlift, ?_, ?_⟩
  · rw [run_ab_test_recommendation, if_neg, if_neg]
    · rw [hlift]
      rintro ⟨-, hc⟩
      exact absurd hc (lt_irrefl 0)
    · rw [hlift]
      rintro ⟨-, hc⟩
      exact absurd hc (lt_irrefl 0)
  · rw [run_ab_test_recommendation, if_neg, if_neg]
    · exact fun hc => absurd hc (by decide)
    · rw [hlift]
      rintro ⟨-, hc⟩
      exact absurd hc (lt_irrefl 0)
    · rw [hlift]
      rintro ⟨-, hc⟩
      exact absurd hc (lt_irrefl 0)

/-- Witness for claim C10: both groups non-empty, A never converts, and the
external tester reports a highly significant p-value, yet the
recommendation is the continue message and not the adopt-B message. -/
theorem zero_a_conversions_forces_continue_witness :
    (run_ab_test
        [⟨some Variant.A_CLINICAL, none, some false⟩,
         ⟨some Variant.B_EMPATHETIC, none, some true⟩]
        (fun _ _ _ _ => ((25 : ℝ) / 10, (1 : ℝ) / 1000)) 0).recommendation =
      REC_CONTINUE ∧
    (run_ab_test
        [⟨some Variant.A_CLINICAL, none, some false⟩,
         ⟨some Variant.B_EMPATHETIC, none, some true⟩]
        (fun _ _ _ _ => ((25 : ℝ) / 10, (1 : ℝ) / 1000)) 0).recommendation ≠
      REC_ADOPT_B :=
  ⟨(zero_a_conversions_forces_continue _ _ _
      (by rw [run_ab_test_conversions_a]; rfl)).2.2.1,
   (zero_a_conversions_forces_continue _ _ _
      (by rw [run_ab_test_conversions_a]; rfl)).2.2.2⟩

/-- The two-stage group selection equals one filter over the population:
null exclusion reason together with the given assigned variant. -/
lemma variant_subset_eq_filter (df : List Record) (v : Variant) :
    variant_subset df v =
      df.filter (fun r =>
        decide (r.experiment_excluded = none ∧ r.assigned_variant = some v)) := by
  unfold variant_subset experiment_subset
  rw [List.filter_filter]
  apply List.filter_congr
  intro r _
  obtain ⟨av, ex, cv⟩ := r
  cases ex <;> cases av <;> simp

/-- The conversion count of a group equals one filter over the population:
in-experiment, given variant, and a decided-true conversion. -/
lemma conversions_count_eq_filter (df : List Record) (v : Variant) :
    conversions_count (variant_subset df v) =
      (df.filter (fun r =>
        decide (r.experiment_excluded = none ∧ r.assigned_variant = some v ∧
          r.converted = some true))).length := by
  unfold conversions_count
  rw [variant_subset_eq_filter, List.filter_filter]
  congr 1
  apply List.filter_congr
  intro r _
  obtain ⟨av, ex, cv⟩ := r
  simp [and_assoc, Bool.and_left_comm, Bool.and_comm, Bool.and_assoc]

/-- Group selection distributes over list append. -/
lemma variant_subset_append (df₁ df₂ : List Record) (v : Variant) :
    variant_subset (df₁ ++ df₂) v = variant_subset df₁ v ++ variant_subset df₂ v := by
  unfold variant_subset experiment_subset
  rw [List.filter_append, List.filter_append]

/-- Conversion counting distributes over list append. -/
lemma conversions_count_append (l₁ l₂ : List Record) :
    conversions_count (l₁ ++ l₂) = conversions_count l₁ + conversions_count l₂ := by
  unfold conversions_count
  rw [List.filter_append, List.length_append]

/-- Claim C7: the analyzer's A/B statistics range over exactly the records
with a null exclusion reason and a non-null (matching) assigned variant,
and a pending record (null converted) in a group adds one to that group's
session count while leaving its conversion count unchanged. -/
theorem ab_statistics_population (df : List Record)
    (zt : ℕ → ℕ → ℕ → ℕ → ℝ × ℝ) (z95 : ℝ) :
    ((run_ab_test df zt z95).variant_a_sessions =
      (df.filter (fun r => decide (r.experiment_excluded = none ∧
        r.assigned_variant = some Variant.A_CLINICAL))).length) ∧
    ((run_ab_test df zt z95).variant_b_sessions =
      (df.filter (fun r => decide (r.experiment_excluded = none ∧
        r.assigned_variant = some Variant.B_EMPATHETIC))).length) ∧
    ((run_ab_test df zt z95).variant_a_conversions =
      (df.filter (fun r => decide (r.experiment_excluded = none ∧
        r.assigned_variant = some Variant.A_CLINICAL ∧
        r.converted = some true))).length) ∧
    ((run_ab_test df zt z95).variant_b_conversions =
      (df.filter (fun r => decide (r.experiment_excluded = none ∧
        r.assigned_variant = some Variant.B_EMPATHETIC ∧
        r.converted = some true))).length) ∧
    ((run_ab_test (df ++ [⟨some Variant.A_CLINICAL, none, none⟩]) zt z95).variant_a_sessions =
      (run_ab_test df zt z95).variant_a_sessions + 1) ∧
    ((run_ab_test (df ++ [⟨some Variant.A_CLINICAL, none, none⟩]) zt z95).variant_a_conversions =
      (run_ab_test df zt z95).variant_a_conversions) := by
  refine ⟨?_, ?_, ?_, ?_, ?_, ?_⟩
  · rw [run_ab_test_sessions_a, variant_subset_eq_filter]
  · rw [run_ab_test_sessions_b, variant_subset_eq_filter]
  · rw [run_ab_test_conversions_a, conversions_count_eq_filter]
  · rw [run_ab_test_conversions_b, conversions_count_eq_filter]
  · rw [run_ab_test_sessions_a, run_ab_test_sessions_a, variant_subset_append,
      List.length_append,
      show (variant_subset [⟨some Variant.A_CLINICAL, none, none⟩]
        Variant.A_CLINICAL).length = 1 from rfl]
  · rw [run_ab_test_conversions_a, run_ab_test_conversions_a, variant_subset_append,
      conversions_count_append,
      show conversions_count (variant_subset [⟨some Variant.A_CLINICAL, none, none⟩]
        Variant.A_CLINICAL) = 0 from rfl, Nat.add_zero]

/-- Claim C8: on any population snapshot (where, as everywhere in the
repository, an exclusion reason is either null or the crisis protocol),
the funnel's total session count is the sum of the in-experiment count and
the crisis-excluded count. -/
theorem funnel_identity (df : List Record)
    (h : ∀ r ∈ df, r.experiment_excluded = none ∨
      r.experiment_excluded = some "crisis_protocol") :
    (get_funnel_data df).total_sessions =
      (get_funnel_data df).experiment_sessions + (get_funnel_data df).crisis_excluded := by
  show df.length =
    (df.filter (fun r => r.experiment_excluded.isNone)).length +
      (df.filter (fun r => decide (r.experiment_excluded = some "crisis_protocol"))).length
  induction df with
  | nil => rfl
  | cons r t ih =>
    have ht : ∀ x ∈ t, x.experiment_excluded = none ∨
        x.experiment_excluded = some "crisis_protocol" :=
      fun x hx => h x (List.mem_cons_of_mem r hx)
    have iht := ih ht
    rcases h r (List.mem_cons_self r t) with he | he <;>
      simp [List.filter_cons, he, iht] <;> omega

/-- Witness for claim C8 on a two-record snapshot: one crisis-excluded
record and one in-experiment record. -/
theorem funnel_identity_witness :
    (get_funnel_data
        [⟨none, some "crisis_protocol", none⟩,
         ⟨some Variant.A_CLINICAL, none, some true⟩]).total_sessions =
      (get_funnel_data
        [⟨none, some "crisis_protocol", none⟩,
         ⟨some Variant.A_CLINICAL, none, some true⟩]).experiment_sessions +
      (get_funnel_data
        [⟨none, some "crisis_protocol", none⟩,
         ⟨some Variant.A_CLINICAL, none, some true⟩]).crisis_excluded :=
  funnel_identity _ (by decide)

/-- Claim C3: the rate estimator returns (0, 0, 0) on zero trials; the
analyzer reports z = 0 and p = 1 whenever either group is empty; and the
spec-modelled significance tester returns (0, 1) whenever either n is zero
or the pooled standard error is zero. -/
theorem zero_data_degeneracy (k : ℕ) (z : ℝ) (df : List Record)
    (zt : ℕ → ℕ → ℕ → ℕ → ℝ × ℝ) (z95 : ℝ) (Φ : ℝ → ℝ) (k1 n1 k2 n2 : ℕ) :
    calculate_conversion_rate_ci k 0 z = (0, 0, 0) ∧
    ((run_ab_test df zt z95).variant_a_sessions = 0 ∨
        (run_ab_test df zt z95).variant_b_sessions = 0 →
      (run_ab_test df zt z95).z_statistic = 0 ∧ (run_ab_test df zt z95).p_value = 1) ∧
    (n1 = 0 ∨ n2 = 0 → proportions_ztest_spec Φ k1 n1 k2 n2 = (0, 1)) ∧
    (pooled_se k1 n1 k2 n2 = 0 → proportions_ztest_spec Φ k1 n1 k2 n2 = (0, 1)) := by
  refine ⟨rfl, ?_, ?_, ?_⟩
  · intro hd
    have hcond : ¬ (0 < (run_ab_test df zt z95).variant_a_sessions ∧
        0 < (run_ab_test df zt z95).variant_b_sessions) := by
      rcases hd with h0 | h0 <;> rintro ⟨h1, h2⟩ <;> omega
    have hzp := run_ab_test_zp df zt z95
    rw [if_neg hcond] at hzp
    exact ⟨(Prod.ext_iff.mp hzp).1, (Prod.ext_iff.mp hzp).2⟩
  · intro hd
    unfold proportions_ztest_spec
    rw [if_pos hd]
  · intro hse
    unfold proportions_ztest_spec
    rcases Decidable.em (n1 = 0 ∨ n2 = 0) with hd | hd
    · rw [if_pos hd]
    · rw [if_neg hd, if_pos hse]

/-- Witness for claim C3: zero trials give (0, 0, 0); an empty population
gives z = 0 and p = 1; a zero first group and a conversion-free pooled
sample each force (0, 1) from the spec-modelled tester. -/
theorem zero_data_degeneracy_witness :
    calculate_conversion_rate_ci 7 0 1 = (0, 0, 0) ∧
    ((run_ab_test [] (fun _ _ _ _ => ((2 : ℝ), (0 : ℝ))) 1).z_statistic = 0 ∧
      (run_ab_test [] (fun _ _ _ _ => ((2 : ℝ), (0 : ℝ))) 1).p_value = 1) ∧
    proportions_ztest_spec (fun _ => 0) 0 0 3 5 = (0, 1) ∧
    proportions_ztest_spec (fun _ => 0) 0 3 0 3 = (0, 1) := by
  refine ⟨(zero_data_degeneracy 7 1 [] (fun _ _ _ _ => ((2 : ℝ), (0 : ℝ))) 1
      (fun _ => 0) 0 0 3 5).1,
    (zero_data_degeneracy 7 1 [] (fun _ _ _ _ => ((2 : ℝ), (0 : ℝ))) 1
      (fun _ => 0) 0 0 3 5).2.1 (Or.inl (by rw [run_ab_test_sessions_a]; rfl)),
    (zero_data_degeneracy 7 1 [] (fun _ _ _ _ => ((2 : ℝ), (0 : ℝ))) 1
      (fun _ => 0) 0 0 3 5).2.2.1 (Or.inl rfl),
    (zero_data_degeneracy 7 1 [] (fun _ _ _ _ => ((2 : ℝ), (0 : ℝ))) 1
      (fun _ => 0) 0 3 0 3).2.2.2 ?_⟩
  unfold pooled_se
  norm_num

/-- Claim C6: the analyzer's recommendation is the policy table applied to
the significance flag and the sign of the relative lift; the flag holds
exactly when p < 0.05; and the three table rows are realised: significant
with positive lift adopts B, significant with negative lift keeps A, and
not significant continues collecting data. -/
theorem recommendation_is_policy (df : List Record)
    (zt : ℕ → ℕ → ℕ → ℕ → ℝ × ℝ) (z95 : ℝ) :
    (run_ab_test df zt z95).recommendation =
      recommendation_policy (run_ab_test df zt z95).is_significant
        (SignType.sign (run_ab_test df zt z95).relative_lift) ∧
    ((run_ab_test df zt z95).is_significant = true ↔
      (run_ab_test df zt z95).p_value < 0.05) ∧
    ((run_ab_test df zt z95).is_significant = true →
      0 < (run_ab_test df zt z95).relative_lift →
      (run_ab_test df zt z95).recommendation = REC_ADOPT_B) ∧
    ((run_ab_test df zt z95).is_significant = true →
      (run_ab_test df zt z95).relative_lift < 0 →
      (run_ab_test df zt z95).recommendation = REC_KEEP_A) ∧
    ((run_ab_test df zt z95).is_significant = false →
      (run_ab_test df zt z95).recommendation = REC_CONTINUE) := by
  have hsig := run_ab_test_significant_iff df zt z95
  have hrec := run_ab_test_recommendation df zt z95
  by_cases hp : (run_ab_test df zt z95).p_value < 0.05
  · have hs : (run_ab_test df zt z95).is_significant = true := hsig.mpr hp
    have hs' : (run_ab_test df zt z95).is_significant ≠ false := by
      simp [hs]
    rcases lt_trichotomy (run_ab_test df zt z95).relative_lift 0 with hl | hl | hl
    · refine ⟨?_, hsig, ?_, ?_, ?_⟩
      · rw [hrec, if_neg (fun hc => absurd hc.2 (not_lt.mpr hl.le)), if_pos ⟨hp, hl⟩,
          recommendation_policy, sign_neg hl]
        rw [if_neg (fun hc => by simpa using hc.2), if_pos ⟨hs, rfl⟩]
      · intro _ h0
        exact absurd h0 (not_lt.mpr hl.le)
      · intro _ _
        rw [hrec, if_neg (fun hc => absurd hc.2 (not_lt.mpr hl.le)), if_pos ⟨hp, hl⟩]
      · intro hf
        exact absurd hf hs'
    · refine ⟨?_, hsig, ?_, ?_, ?_⟩
      · rw [hrec, if_neg (fun hc => absurd hc.2 (not_lt.mpr hl.le)),
          if_neg (fun hc => absurd hc.2 (not_lt.mpr hl.ge)),
          recommendation_policy, hl, sign_zero]
        rw [if_neg (fun hc => by simpa using hc.2), if_neg (fun hc => by simpa using hc.2)]
      · intro _ h0
        exact absurd h0 (not_lt.mpr hl.le)
      · intro _ h0
        exact absurd h0 (not_lt.mpr hl.ge)
      · intro hf
        exact absurd hf hs'
    · refine ⟨?_, hsig, ?_, ?_, ?_⟩
      · rw [hrec, if_pos ⟨hp, hl⟩, recommendation_policy, sign_pos hl]
        rw [if_pos ⟨hs, rfl⟩]
      · intro _ _
        rw [hrec, if_pos ⟨hp, hl⟩]
      · intro _ h0
        exact absurd h0 (not_lt.mpr hl.le)
      · intro hf
        exact absurd hf hs'
  · have hs : (run_ab_test df zt z95).is_significant = false := by
      cases hb : (run_ab_test df zt z95).is_significant
      · rfl
      · exact absurd (hsig.mp hb) hp
    refine ⟨?_, hsig, ?_, ?_, ?_⟩
    · rw [hrec, if_neg (fun hc => absurd hc.1 hp), if_neg (fun hc => absurd hc.1 hp),
        recommendation_policy]
      rw [if_neg (fun hc => by simp [hs] at hc), if_neg (fun hc => by simp [hs] at hc)]
    · intro ht
      exact absurd ht (by simp [hs])
    · intro ht
      exact absurd ht (by simp [hs])
    · intro _
      rw [hrec, if_neg (fun hc => absurd hc.1 hp), if_neg (fun hc => absurd hc.1 hp)]

/-- Witness for claim C6 in the not-significant row: with a tester that
always reports p = 1 the recommendation is the continue message. -/
theorem recommendation_is_policy_witness :
    (run_ab_test [] (fun _ _ _ _ => ((0 : ℝ), (1 : ℝ))) 0).recommendation =
      REC_CONTINUE := by
  have ha : (run_ab_test [] (fun _ _ _ _ => ((0 : ℝ), (1 : ℝ))) 0).variant_a_sessions = 0 := by
    rw [run_ab_test_sessions_a]
    rfl
  have hzp := run_ab_test_zp [] (fun _ _ _ _ => ((0 : ℝ), (1 : ℝ))) 0
  rw [if_neg (fun hc => by rw [ha] at hc; exact absurd hc.1 (lt_irrefl 0))] at hzp
  have hp : (run_ab_test [] (fun _ _ _ _ => ((0 : ℝ), (1 : ℝ))) 0).p_value = 1 :=
    (Prod.ext_iff.mp hzp).2
  refine (recommendation_is_policy [] (fun _ _ _ _ => ((0 : ℝ), (1 : ℝ))) 0).2.2.2.2 ?_
  cases hb : (run_ab_test [] (fun _ _ _ _ => ((0 : ℝ), (1 : ℝ))) 0).is_significant
  · rfl
  · have := (run_ab_test_significant_iff [] (fun _ _ _ _ => ((0 : ℝ), (1 : ℝ))) 0).mp hb
    rw [hp] at this
    norm_num at this

/-- Comparison of nonnegative reals follows from comparison of squares. -/
lemma nonneg_le_of_sq_le_sq (a b : ℝ) (ha : 0 ≤ a) (hb : 0 ≤ b) (h : a ^ 2 ≤ b ^ 2) :
    a ≤ b := by nlinarith

set_option maxHeartbeats 1000000 in
/-- Core bounds of the Wilson interval: for 0 ≤ k ≤ n, n ≥ 1 and a positive
quantile, the interval contains the point rate and stays inside [0, 1]. -/
lemma wilson_interval_core (k n : ℕ) (z : ℝ) (hk : k ≤ n) (hn : 1 ≤ n) (hz : 0 < z) :
    0 ≤ (wilson_interval k n z).1 ∧
    (wilson_interval k n z).1 ≤ (k : ℝ) / (n : ℝ) ∧
    (k : ℝ) / (n : ℝ) ≤ (wilson_interval k n z).2 ∧
    (wilson_interval k n z).2 ≤ 1 := by
  have hN : (0 : ℝ) < (n : ℝ) := Nat.cast_pos.mpr (by omega)
  have hK0 : (0 : ℝ) ≤ (k : ℝ) := Nat.cast_nonneg k
  have hKN : (k : ℝ) ≤ (n : ℝ) := Nat.cast_le.mpr hk
  have hNne : (n : ℝ) ≠ 0 := ne_of_gt hN
  set N : ℝ := (n : ℝ) with hNdef
  set K : ℝ := (k : ℝ) with hKdef
  have hp1 : K / N ≤ 1 := (div_le_one hN).mpr hKN
  have hA0 : 0 ≤ K / N * (1 - K / N) / N + z ^ 2 / (4 * N ^ 2) := by
    have h1 : 0 ≤ K / N * (1 - K / N) / N :=
      div_nonneg (mul_nonneg (div_nonneg hK0 hN.le) (by linarith)) hN.le
    have h2 : 0 ≤ z ^ 2 / (4 * N ^ 2) := by positivity
    linarith
  set S : ℝ := Real.sqrt (K / N * (1 - K / N) / N + z ^ 2 / (4 * N ^ 2)) with hSdef
  have hS0 : 0 ≤ S := Real.sqrt_nonneg _
  have hS2 : S ^ 2 = K / N * (1 - K / N) / N + z ^ 2 / (4 * N ^ 2) := Real.sq_sqrt hA0
  have hS2' : S ^ 2 * (4 * N ^ 3) = 4 * K * (N - K) + z ^ 2 * N := by
    rw [hS2]
    field_simp
    ring
  have hSlb : z / (2 * N) ≤ S := by
    have hq : (z / (2 * N)) ^ 2 ≤ K / N * (1 - K / N) / N + z ^ 2 / (4 * N ^ 2) := by
      have he : (z / (2 * N)) ^ 2 = z ^ 2 / (4 * N ^ 2) := by
        field_simp
        ring
      rw [he]
      have h1 : 0 ≤ K / N * (1 - K / N) / N :=
        div_nonneg (mul_nonneg (div_nonneg hK0 hN.le) (by linarith)) hN.le
      linarith
    calc z / (2 * N) = Real.sqrt ((z / (2 * N)) ^ 2) := (Real.sqrt_sq (by positivity)).symm
      _ ≤ S := Real.sqrt_le_sqrt hq
  have hS2N : z ^ 2 * N / 2 ≤ z * S * N ^ 2 := by
    have hmul := mul_le_mul_of_nonneg_left hSlb (show (0 : ℝ) ≤ z * N ^ 2 by positivity)
    calc z ^ 2 * N / 2 = z * N ^ 2 * (z / (2 * N)) := by
          field_simp
          ring
      _ ≤ z * N ^ 2 * S := hmul
      _ = z * S * N ^ 2 := by ring
  have hD : (0 : ℝ) < N + z ^ 2 := by positivity
  have hd2 : (0 : ℝ) < 1 + z ^ 2 / N := by positivity
  have hsub : z * S / (1 + z ^ 2 / N) = z * S * N / (N + z ^ 2) := by
    rw [show 1 + z ^ 2 / N = (N + z ^ 2) / N by field_simp]
    rw [div_div_eq_mul_div]
  have key1 : z * S * N ≤ K + z ^ 2 / 2 := by
    apply nonneg_le_of_sq_le_sq _ _ (by positivity) (by positivity)
    have e1 : (z * S * N) ^ 2 * (4 * N) = z ^ 2 * (4 * K * (N - K) + z ^ 2 * N) := by
      linear_combination z ^ 2 * hS2'
    have h4 : (z * S * N) ^ 2 * (4 * N) ≤ (K + z ^ 2 / 2) ^ 2 * (4 * N) := by
      rw [e1]
      nlinarith [mul_nonneg (mul_nonneg hK0 hK0) (sq_nonneg z), mul_nonneg hN.le (mul_nonneg hK0 hK0)]
    exact le_of_mul_le_mul_right h4 (by positivity)
  have key2 : z * S * N ≤ (N - K) + z ^ 2 / 2 := by
    apply nonneg_le_of_sq_le_sq _ _ (by positivity) (by nlinarith)
    have e1 : (z * S * N) ^ 2 * (4 * N) = z ^ 2 * (4 * K * (N - K) + z ^ 2 * N) := by
      linear_combination z ^ 2 * hS2'
    have h4 : (z * S * N) ^ 2 * (4 * N) ≤ ((N - K) + z ^ 2 / 2) ^ 2 * (4 * N) := by
      rw [e1]
      nlinarith [mul_nonneg (sq_nonneg z) (sq_nonneg (N - K)),
        mul_nonneg hN.le (mul_nonneg (sub_nonneg.mpr hKN) (sub_nonneg.mpr hKN))]
    exact le_of_mul_le_mul_right h4 (by positivity)
  refine ⟨?_, ?_, ?_, ?_⟩
  · show 0 ≤ (K + z ^ 2 / 2) / (N + z ^ 2) - z * S / (1 + z ^ 2 / N)
    rw [hsub, div_sub_div_same]
    exact div_nonneg (by linarith) hD.le
  · show (K + z ^ 2 / 2) / (N + z ^ 2) - z * S / (1 + z ^ 2 / N) ≤ K / N
    rw [hsub, div_sub_div_same, div_le_div_iff hD hN]
    have hKz : 0 ≤ K * z ^ 2 := mul_nonneg hK0 (sq_nonneg z)
    nlinarith [hS2N]
  · show K / N ≤ (K + z ^ 2 / 2) / (N + z ^ 2) + z * S / (1 + z ^ 2 / N)
    rw [hsub, div_add_div_same, div_le_div_iff hN hD]
    have hKz : K * z ^ 2 ≤ N * z ^ 2 := mul_le_mul_of_nonneg_right hKN (sq_nonneg z)
    nlinarith [hS2N]
  · show (K + z ^ 2 / 2) / (N + z ^ 2) + z * S / (1 + z ^ 2 / N) ≤ 1
    rw [hsub, div_add_div_same, div_le_one hD]
    linarith

/-- Claim C4: for 0 ≤ k ≤ n, n ≥ 1 and a positive normal quantile (the
image of any alpha in (0,1) under the inverse normal CDF at 1 - alpha/2),
the rate estimator returns the point rate k/n and a Wilson interval with
0 ≤ ci_lower ≤ rate ≤ ci_upper ≤ 1. -/
theorem calculate_conversion_rate_ci_bounds (k n : ℕ) (z : ℝ)
    (hk : k ≤ n) (hn : 1 ≤ n) (hz : 0 < z) :
    (calculate_conversion_rate_ci k n z).1 = (k : ℚ) / (n : ℚ) ∧
    0 ≤ (calculate_conversion_rate_ci k n z).2.1 ∧
    (calculate_conversion_rate_ci k n z).2.1 ≤
      (((calculate_conversion_rate_ci k n z).1 : ℚ) : ℝ) ∧
    (((calculate_conversion_rate_ci k n z).1 : ℚ) : ℝ) ≤
      (calculate_conversion_rate_ci k n z).2.2 ∧
    (calculate_conversion_rate_ci k n z).2.2 ≤ 1 := by
  have hne : n ≠ 0 := by omega
  have hproj : calculate_conversion_rate_ci k n z =
      ((k : ℚ) / (n : ℚ), (wilson_interval k n z).1, (wilson_interval k n z).2) := by
    unfold calculate_conversion_rate_ci
    rw [if_neg hne]
  have hcast : (((k : ℚ) / (n : ℚ) : ℚ) : ℝ) = (k : ℝ) / (n : ℝ) := by
    push_cast
    ring
  obtain ⟨h1, h2, h3, h4⟩ := wilson_interval_core k n z hk hn hz
  rw [hproj]
  exact ⟨rfl, h1, by rw [hcast]; exact h2, by rw [hcast]; exact h3, h4⟩

/-- Witness for claim C4 at k = 1, n = 4, z = 2: the hypotheses hold and
the bounds follow. -/
theorem calculate_conversion_rate_ci_bounds_witness :
    (calculate_conversion_rate_ci 1 4 2).1 = (1 : ℚ) / 4 ∧
    0 ≤ (calculate_conversion_rate_ci 1 4 2).2.1 ∧
    (calculate_conversion_rate_ci 1 4 2).2.1 ≤
      (((calculate_conversion_rate_ci 1 4 2).1 : ℚ) : ℝ) ∧
    (((calculate_conversion_rate_ci 1 4 2).1 : ℚ) : ℝ) ≤
      (calculate_conversion_rate_ci 1 4 2).2.2 ∧
    (calculate_conversion_rate_ci 1 4 2).2.2 ≤ 1 := by
  have h := calculate_conversion_rate_ci_bounds 1 4 2 (by norm_num) (by norm_num) (by norm_num)
  simpa using h

end MindLog
